import Mathlib

/-!
Shallow embedding of the authentication/session subsystem of the `gabb`
repository (`src/gabb/auth.py`, `src/gabb/session.py`) and proofs of the
specification's claims about it.

Modelling conventions:
* Python exceptions are values of `Gabb.PyErr`; a Python function that can
  raise is embedded as a function returning `Option Gabb.PyErr` alongside the
  state it leaves behind (an exception thrown mid-function leaves the
  mutations performed so far, so the post-state is returned even on error).
* Timestamps (`datetime` values) are modelled as `Int`; `datetime` comparison
  becomes `Int` comparison.  `dateutil.parser.parse` of the `expDate` field is
  abstracted to its result: the response model carries the parsed timestamp
  directly, with `none` standing for a missing (or unparseable) field.
* The network is an oracle `Gabb.Net : HttpRequest → Option Response`;
  `none` models `requests.post` raising a connection error (endpoint
  unreachable).
* `requests` header dictionaries are case-insensitive
  (`requests.structures.CaseInsensitiveDict`); they are modelled as
  association lists with case-insensitive lookup and update.
-/

namespace Gabb

/-- Lowercase an ASCII character, as Python's `str.lower` does on ASCII. -/
def lowerChar (c : Char) : Char :=
  if 'A' ≤ c ∧ c ≤ 'Z' then Char.ofNat (c.toNat + 32) else c

/-- The normalized (lowercased) form of a header key, the form under which
`requests.structures.CaseInsensitiveDict` stores entries. -/
def normKey (s : String) : List Char :=
  s.data.map lowerChar

/-- Case-insensitive key comparison used by `requests.structures.CaseInsensitiveDict`. -/
def keyEq (a b : String) : Bool :=
  normKey a = normKey b

/-- Exceptions the embedded Python code can raise. -/
inductive PyErr where
  /-- `requests.exceptions.ConnectionError`: the endpoint is unreachable. -/
  | connectionError
  /-- `response.json()` failed: the body is not valid JSON. -/
  | jsonDecodeError
  /-- `KeyError`: a dict subscript on a missing key. -/
  | keyError (key : String)
deriving DecidableEq, Repr

/-- The nested `data` object of an auth/refresh response body.  Each field is
`none` when the key is absent.  `expDate` is the already-parsed timestamp
(`dateutil.parser.parse` abstracted to its result; `none` covers a missing or
unparseable field). -/
structure DataObj where
  accessToken : Option String
  refreshToken : Option String
  expDate : Option Int
deriving DecidableEq, Repr

/-- The body of an HTTP response as seen by `_update_tokens_from_response`. -/
inductive RespBody where
  /-- The body is not valid JSON: `response.json()` raises. -/
  | notJson
  /-- Valid JSON, but the top-level object has no `data` key. -/
  | jsonWithoutData
  /-- Valid JSON with a `data` object. -/
  | jsonData (d : DataObj)
deriving DecidableEq, Repr

/-- An HTTP response: status code plus body. -/
structure Response where
  status_code : Nat
  body : RespBody
deriving DecidableEq, Repr

/-- Does handing this response to `_update_tokens_from_response` fail before
the first assignment: the body is not JSON, has no `data` object, or its
`data` object lacks `accessToken`. -/
def Response.lacksAccessToken (resp : Response) : Bool :=
  match resp.body with
  | .notJson => true
  | .jsonWithoutData => true
  | .jsonData d => d.accessToken.isNone

/-- Does the response body lack any of the three expected token fields (or
fail to be JSON with a `data` object at all). -/
def Response.lacksTokenFields (resp : Response) : Bool :=
  match resp.body with
  | .notJson => true
  | .jsonWithoutData => true
  | .jsonData d => d.accessToken.isNone || d.refreshToken.isNone || d.expDate.isNone

/-- An outgoing HTTP POST as issued by `requests.post(url, headers=..., data=payload)`:
the payload is the key/value content of the JSON-dumped dict. -/
structure HttpRequest where
  url : String
  headers : List (String × String)
  payload : List (String × String)
deriving DecidableEq, Repr

/-- The network oracle: `none` models `requests.post` raising a connection
error (endpoint unreachable). -/
def Net : Type := HttpRequest → Option Response

/-- The state of a `GabbAuth` instance (`src/gabb/auth.py`).  The Python
`_access_token`, `_refresh_token`, `_exp_date` attributes are the
`access_token`, `refresh_token`, `exp_date` fields (underscores dropped). -/
structure GabbAuth where
  username : String
  password : String
  auth_url : String
  refresh_url : String
  app_build : String
  access_token : String
  refresh_token : String
  exp_date : Int
deriving DecidableEq, Repr

/-- The fixed headers `GabbAuth._required_headers` attached to every login and
refresh call. -/
def required_headers : List (String × String) :=
  [("X-Accept-Language", "en-US"),
   ("X-Accept-Offset", "-5.000000"),
   ("Accept-Version", "1.0"),
   ("User-Agent", "FiLIP-iOS"),
   ("X-Accept-Version", "1.0"),
   ("Content-Type", "application/json")]

/-- `GabbAuth._token_expired` (auth.py line 164): `self._exp_date <
datetime.datetime.now(datetime.timezone.utc)` — strict less-than against the
current UTC time, passed here explicitly as `now`. -/
def GabbAuth.token_expired (a : GabbAuth) (now : Int) : Bool :=
  a.exp_date < now

/-- `GabbAuth._update_tokens_from_response` (auth.py lines 152-158).  The three
assignments run in order (`accessToken`, then `refreshToken`, then `expDate`);
an exception at any point leaves the assignments already made, so the
post-state is returned alongside the raised exception. -/
def GabbAuth.update_tokens_from_response (a : GabbAuth) (resp : Response) :
    Option PyErr × GabbAuth :=
  match resp.body with
  | .notJson => (some .jsonDecodeError, a)
  | .jsonWithoutData => (some (.keyError "data"), a)
  | .jsonData d =>
    match d.accessToken with
    | none => (some (.keyError "accessToken"), a)
    | some at_tok =>
      let a1 := { a with access_token := at_tok }
      match d.refreshToken with
      | none => (some (.keyError "refreshToken"), a1)
      | some rt_tok =>
        let a2 := { a1 with refresh_token := rt_tok }
        match d.expDate with
        | none => (some (.keyError "expDate"), a2)
        | some ed => (none, { a2 with exp_date := ed })

/-- The POST issued by `GabbAuth._new_authentication` (auth.py lines 128-138):
`auth_url`, the fixed headers, and the JSON payload
`{appBuild, username, password}`. -/
def GabbAuth.auth_request (a : GabbAuth) : HttpRequest :=
  { url := a.auth_url,
    headers := required_headers,
    payload := [("appBuild", a.app_build),
                ("username", a.username),
                ("password", a.password)] }

/-- The POST issued by `GabbAuth._refresh_authentication` (auth.py lines
144-148): `refresh_url`, the fixed headers, and the JSON payload
`{refreshToken}`. -/
def GabbAuth.refresh_request (a : GabbAuth) : HttpRequest :=
  { url := a.refresh_url,
    headers := required_headers,
    payload := [("refreshToken", a.refresh_token)] }

/-- `GabbAuth._new_authentication` (auth.py lines 126-140): POST the login
payload, then update tokens from the response.  Note the status code of the
response is never inspected. -/
def GabbAuth.new_authentication (a : GabbAuth) (net : Net) :
    Option PyErr × GabbAuth :=
  match net a.auth_request with
  | none => (some .connectionError, a)
  | some resp => a.update_tokens_from_response resp

/-- `GabbAuth._refresh_authentication` (auth.py lines 142-150): POST the
refresh payload, then update tokens from the response. -/
def GabbAuth.refresh_authentication (a : GabbAuth) (net : Net) :
    Option PyErr × GabbAuth :=
  match net a.refresh_request with
  | none => (some .connectionError, a)
  | some resp => a.update_tokens_from_response resp

/-- The outgoing request object being decorated by `GabbAuth.__call__`: only
its headers matter to the code. -/
structure Request where
  headers : List (String × String)
deriving DecidableEq, Repr

/-- `CaseInsensitiveDict.__setitem__` via `dict.update`: replace the (unique)
entry whose key matches case-insensitively, keeping its position and storing
the new key casing, or append if no entry matches. -/
def setHeader : List (String × String) → String → String → List (String × String)
  | [], k, v => [(k, v)]
  | p :: t, k, v => if keyEq p.1 k then (k, v) :: t else p :: setHeader t k v

/-- Case-insensitive header lookup (`CaseInsensitiveDict.__getitem__`): the
value of the first (in a dict, unique) entry whose key matches. -/
def getHeader : List (String × String) → String → Option String
  | [], _ => none
  | p :: t, k => if keyEq p.1 k then some p.2 else getHeader t k

/-- The observable outcome of one `GabbAuth.__call__` invocation: the raised
exception if any, the authenticator state afterwards, the (possibly mutated)
request object, and how many refresh calls were triggered. -/
structure CallResult where
  error : Option PyErr
  auth : GabbAuth
  request : Request
  refreshCount : Nat
deriving DecidableEq, Repr

/-- `GabbAuth.__call__` (auth.py lines 104-124): if the token is expired,
refresh (an exception there propagates, leaving the request untouched); then
set the `Authorization` header to `Bearer <access token>` and return the
request. -/
def GabbAuth.call (a : GabbAuth) (now : Int) (net : Net) (req : Request) :
    CallResult :=
  if a.token_expired now then
    match a.refresh_authentication net with
    | (some e, a1) => { error := some e, auth := a1, request := req, refreshCount := 1 }
    | (none, a1) =>
      { error := none, auth := a1,
        request := ⟨setHeader req.headers "Authorization" ("Bearer " ++ a1.access_token)⟩,
        refreshCount := 1 }
  else
    { error := none, auth := a,
      request := ⟨setHeader req.headers "Authorization" ("Bearer " ++ a.access_token)⟩,
      refreshCount := 0 }

/-! ### URL resolution: a port of `urllib.parse.urljoin`, which
`GabbSession.request` calls (session.py lines 49-53). -/

/-- Split a character list at the first occurrence of `c` (Python
`s.split(c, 1)`): the part before, and `some` part after when `c` occurs. -/
def splitFirstChar (c : Char) : List Char → List Char × Option (List Char)
  | [] => ([], none)
  | x :: xs =>
    if x = c then ([], some xs)
    else
      let r := splitFirstChar c xs
      (x :: r.1, r.2)

/-- Characters allowed in a URL scheme (`urllib.parse.scheme_chars`). -/
def isSchemeChar (c : Char) : Bool :=
  c.isAlphanum || c = '+' || c = '-' || c = '.'

/-- Scheme extraction of `urllib.parse.urlsplit`: a leading
`alpha (alphanum | + | - | .)* :` is the scheme (lowercased); otherwise the
caller-supplied default applies (urljoin passes the base's scheme). -/
def splitScheme (url : String) (defaultScheme : String) : String × String :=
  let cs := url.data
  let before := cs.takeWhile (fun c => c ≠ ':')
  if decide (before.length < cs.length) && !before.isEmpty &&
      (before.headD '0').isAlpha && before.all isSchemeChar then
    (String.mk (before.map lowerChar), String.mk (cs.drop (before.length + 1)))
  else
    (defaultScheme, url)

/-- Characters that end the netloc component (`urllib.parse._splitnetloc`). -/
def netlocDelim (c : Char) : Bool :=
  c = '/' || c = '?' || c = '#'

/-- Netloc extraction of `urllib.parse.urlsplit`: after `//`, up to the first
of `/`, `?`, `#`. -/
def splitNetloc (url : String) : String × String :=
  match url.data with
  | '/' :: '/' :: rest =>
    (String.mk (rest.takeWhile (fun c => !netlocDelim c)),
     String.mk (rest.dropWhile (fun c => !netlocDelim c)))
  | _ => ("", url)

/-- The five components of `urllib.parse.SplitResult`; absent components are
the empty string, as in Python. -/
structure UrlParts where
  scheme : String
  netloc : String
  path : String
  query : String
  fragment : String
deriving DecidableEq, Repr

/-- `urllib.parse.urlsplit` (fragments allowed): scheme, then netloc, then
fragment, then query. -/
def urlsplit (url : String) (defaultScheme : String) : UrlParts :=
  let s1 := splitScheme url defaultScheme
  let s2 := splitNetloc s1.2
  let s3 := splitFirstChar '#' s2.2.data
  let s4 := splitFirstChar '?' s3.1
  { scheme := s1.1, netloc := s2.1, path := String.mk s4.1,
    query := String.mk (s4.2.getD []), fragment := String.mk (s3.2.getD []) }

/-- Does the string start with a single slash character. -/
def startsSlash (s : String) : Bool :=
  match s.data with
  | '/' :: _ => true
  | _ => false

/-- Does the string start with two slash characters. -/
def startsDoubleSlash (s : String) : Bool :=
  match s.data with
  | '/' :: '/' :: _ => true
  | _ => false

/-- `urllib.parse.urlunsplit`: reassemble the five components. -/
def urlunsplit (p : UrlParts) : String :=
  let url := p.path
  let url :=
    if p.netloc ≠ "" ∨ (url ≠ "" ∧ startsDoubleSlash url) then
      "//" ++ p.netloc ++ (if url ≠ "" ∧ ¬ startsSlash url then "/" ++ url else url)
    else url
  let url := if p.scheme ≠ "" then p.scheme ++ ":" ++ url else url
  let url := if p.query ≠ "" then url ++ "?" ++ p.query else url
  if p.fragment ≠ "" then url ++ "#" ++ p.fragment else url

/-- `urllib.parse.uses_relative`: schemes that support relative references. -/
def usesRelative : List String :=
  ["", "ftp", "http", "gopher", "nntp", "imap", "wais", "file", "https",
   "shttp", "mms", "prospero", "rtsp", "rtspu", "sftp", "svn", "svn+ssh",
   "ws", "wss"]

/-- `urllib.parse.uses_netloc`: schemes that use a network location. -/
def usesNetloc : List String :=
  ["", "ftp", "http", "gopher", "nntp", "telnet", "imap", "wais", "file",
   "mms", "https", "shttp", "snews", "prospero", "rtsp", "rtspu", "rsync",
   "svn", "svn+ssh", "sftp", "nfs", "git", "git+ssh", "ws", "wss",
   "itms-services"]

/-- Python `s.split(c)` on a character list: always at least one piece. -/
def splitOnChar (c : Char) : List Char → List (List Char)
  | [] => [[]]
  | x :: xs =>
    if x = c then [] :: splitOnChar c xs
    else
      match splitOnChar c xs with
      | [] => [[x]]
      | y :: ys => (x :: y) :: ys

/-- Python `path.split('/')` producing strings. -/
def splitSlash (s : String) : List String :=
  (splitOnChar '/' s.data).map String.mk

/-- Python `'/'.join(l)`. -/
def joinSlash : List String → String
  | [] => ""
  | [x] => x
  | x :: y :: ys => x ++ "/" ++ joinSlash (y :: ys)

/-- The urljoin line `segments[1:-1] = filter(None, segments[1:-1])`: drop
empty segments except the first and last. -/
def filterMiddle : List String → List String
  | [] => []
  | [x] => [x]
  | x :: xs => x :: ((xs.dropLast.filter (fun s => s ≠ "")) ++ [xs.getLastD ""])

/-- `urllib.parse.urljoin` (CPython 3.x), restricted to `allow_fragments=True`:
RFC 3986 relative resolution as Python implements it. -/
def urljoin (base url : String) : String :=
  if base = "" then url
  else if url = "" then base
  else
    let b := urlsplit base ""
    let u := urlsplit url b.scheme
    if u.scheme ≠ b.scheme ∨ ¬ usesRelative.contains u.scheme then url
    else
      let useNl := usesNetloc.contains u.scheme
      if useNl ∧ u.netloc ≠ "" then
        urlunsplit u
      else
        let netloc := if useNl then b.netloc else u.netloc
        if u.path = "" then
          urlunsplit { scheme := u.scheme, netloc := netloc, path := b.path,
                       query := if u.query = "" then b.query else u.query,
                       fragment := u.fragment }
        else
          let baseParts0 := splitSlash b.path
          let baseParts :=
            if baseParts0.getLastD "" ≠ "" then baseParts0.dropLast else baseParts0
          let segments :=
            if startsSlash u.path then splitSlash u.path
            else filterMiddle (baseParts ++ splitSlash u.path)
          let resolved := segments.foldl
            (fun acc seg =>
              if seg = ".." then acc.dropLast
              else if seg = "." then acc
              else acc ++ [seg]) []
          let resolved :=
            if segments.getLastD "" = ".." ∨ segments.getLastD "" = "." then
              resolved ++ [""]
            else resolved
          let joined := joinSlash resolved
          urlunsplit { scheme := u.scheme, netloc := netloc,
                       path := if joined = "" then "/" else joined,
                       query := u.query, fragment := u.fragment }

/-! ### The session (`src/gabb/session.py`). -/

/-- The state of a `GabbSession` instance relevant to URL resolution: the two
base URLs and the one-shot flag.  (`__init__` sets the flag to `false`; the
client code arms it by assigning `use_alt_base_url_next_request = True`, which
the spec names `use_alternate_base_once`.) -/
structure GabbSession where
  base_url : String
  alt_base_url : String
  use_alt_base_url_next_request : Bool
deriving DecidableEq, Repr

/-- `GabbSession.__init__` (session.py lines 26-41): the flag starts `false`. -/
def GabbSession.init (base_url alt_base_url : String) : GabbSession :=
  { base_url, alt_base_url, use_alt_base_url_next_request := false }

/-- Arming the one-shot flag (`session.use_alt_base_url_next_request = True`,
as done by client.py; the spec's `use_alternate_base_once()`). -/
def GabbSession.use_alternate_base_once (s : GabbSession) : GabbSession :=
  { s with use_alt_base_url_next_request := true }

/-- The URL-resolution part of `GabbSession.request` (session.py lines 49-53):
pick the base by the flag, join, and clear the flag if it was set.  This runs
before the transport call, so it alone determines the post-state of the flag. -/
def GabbSession.resolve_url (s : GabbSession) (url : String) :
    String × GabbSession :=
  if s.use_alt_base_url_next_request then
    (urljoin s.alt_base_url url, { s with use_alt_base_url_next_request := false })
  else
    (urljoin s.base_url url, s)

/-- Outcome of the delegated `super().request` transport call. -/
inductive TransportOutcome where
  | success (resp : Response)
  | failure (e : PyErr)
deriving DecidableEq, Repr

/-- `GabbSession.request` (session.py lines 43-55) including the delegated
transport call: resolve the URL (consuming the flag), then call the transport
on the joined URL.  A transport failure propagates, but the flag was already
written. -/
def GabbSession.request (s : GabbSession) (url : String)
    (transport : String → TransportOutcome) :
    TransportOutcome × String × GabbSession :=
  let r := s.resolve_url url
  (transport r.1, r.1, r.2)

/-! ### Concrete fixtures used by witnesses. -/

/-- A concrete authenticator state whose token expired at time 0. -/
def sampleAuth : GabbAuth :=
  { username := "user", password := "pw",
    auth_url := "https://api.myfilip.com/v2/sso/gabb",
    refresh_url := "https://api.myfilip.com/v2/token/refresh",
    app_build := "1.28 (966)",
    access_token := "tok0", refresh_token := "ref0", exp_date := 0 }

/-- A well-formed response body carrying all three token fields. -/
def goodBody : RespBody :=
  .jsonData { accessToken := some "tokN", refreshToken := some "refN", expDate := some 100 }

/-- A network oracle that always answers with a well-formed 200 response. -/
def netGood : Net := fun _ => some { status_code := 200, body := goodBody }

/-- A network oracle modelling an unreachable endpoint. -/
def netDown : Net := fun _ => none

/-- An outgoing request with no headers yet. -/
def emptyReq : Request := ⟨[]⟩

/-- A concrete session over the spec's example base URLs. -/
def sampleSession : GabbSession :=
  GabbSession.init "https://api.example.com/v2/" "https://api.example.com/"

/-- A transport that always fails (the delegated call raising). -/
def tFail : String → TransportOutcome := fun _ => .failure .connectionError

/-! ### Helper lemmas. -/

/-- Case-insensitive equality of keys is symmetric. -/
theorem keyEq_comm (a b : String) : keyEq a b = keyEq b a := by
  simp [keyEq, eq_comm]

/-- If two keys agree case-insensitively, they compare equally against any
third key. -/
theorem keyEq_trans_left {a b : String} (h : keyEq a b = true) (c : String) :
    keyEq a c = keyEq b c := by
  have hn : normKey a = normKey b := by simpa [keyEq] using h
  simp [keyEq, hn]

/-- Key equality is reflexive. -/
theorem keyEq_self (k : String) : keyEq k k = true := by
  simp [keyEq]

/-- Updating a header then looking it up (case-insensitively) yields the new
value. -/
theorem getHeader_setHeader_self (hs : List (String × String)) (k v : String) :
    getHeader (setHeader hs k v) k = some v := by
  induction hs with
  | nil => simp [setHeader, getHeader, keyEq_self]
  | cons p t ih =>
    by_cases hp : keyEq p.1 k
    · simp [setHeader, hp, getHeader, keyEq_self]
    · simp [setHeader, hp, getHeader, ih]

/-- Updating a header leaves the lookup of any key that does not match it
case-insensitively unchanged. -/
theorem getHeader_setHeader_other (hs : List (String × String)) (k0 v k : String)
    (hk : keyEq k k0 = false) :
    getHeader (setHeader hs k0 v) k = getHeader hs k := by
  have hk0 : keyEq k0 k = false := by rw [keyEq_comm]; exact hk
  induction hs with
  | nil => simp [setHeader, getHeader, hk0]
  | cons p t ih =>
    by_cases hp : keyEq p.1 k0
    · have hpk : keyEq p.1 k = false := by
        rw [keyEq_trans_left hp k]; exact hk0
      simp [setHeader, hp, getHeader, hk0, hpk]
    · simp [setHeader, hp, getHeader, ih]

/-- The expiry test is `true` exactly on timestamps strictly below `now`. -/
theorem token_expired_iff (a : GabbAuth) (now : Int) :
    a.token_expired now = true ↔ a.exp_date < now := by
  simp [GabbAuth.token_expired]

/-- An expired token makes `__call__` perform exactly one refresh call. -/
theorem call_refreshCount_of_expired (a : GabbAuth) (now : Int) (net : Net)
    (req : Request) (h : a.exp_date < now) :
    (a.call now net req).refreshCount = 1 := by
  unfold GabbAuth.call
  rw [(token_expired_iff a now).mpr h]
  rcases hres : a.refresh_authentication net with ⟨e, a1⟩
  cases e <;> simp

/-! ### The claims. -/

/-- C1: for every stored token state whose expiry timestamp is strictly less
than the current UTC time, a single `GabbAuth.__call__` triggers exactly one
refresh call, the resulting authenticator state is the refreshed one, and the
`Authorization` header attached on success carries the post-refresh access
token — i.e. the refresh happens before the header is attached. -/
theorem call_expired_refreshes_once_before_header (a : GabbAuth) (now : Int)
    (net : Net) (req : Request) (h : a.exp_date < now) :
    (a.call now net req).refreshCount = 1 ∧
    (a.call now net req).auth = (a.refresh_authentication net).2 ∧
    (a.call now net req).request.headers =
      (if (a.refresh_authentication net).1 = none then
        setHeader req.headers "Authorization"
          ("Bearer " ++ (a.refresh_authentication net).2.access_token)
      else req.headers) := by
  unfold GabbAuth.call
  rw [(token_expired_iff a now).mpr h]
  rcases hres : a.refresh_authentication net with ⟨e, a1⟩
  cases e <;> simp

/-- Witness for C1 at a concrete expired state and a well-formed refresh
response. -/
theorem call_expired_refreshes_once_before_header_witness :
    sampleAuth.exp_date < 1 ∧
    ((sampleAuth.call 1 netGood emptyReq).refreshCount = 1 ∧
     (sampleAuth.call 1 netGood emptyReq).auth =
       (sampleAuth.refresh_authentication netGood).2 ∧
     (sampleAuth.call 1 netGood emptyReq).request.headers =
       (if (sampleAuth.refresh_authentication netGood).1 = none then
         setHeader emptyReq.headers "Authorization"
           ("Bearer " ++ (sampleAuth.refresh_authentication netGood).2.access_token)
       else emptyReq.headers)) :=
  ⟨by decide,
   call_expired_refreshes_once_before_header sampleAuth 1 netGood emptyReq (by decide)⟩

/-- C2: the expiry boundary is exclusive: whenever the stored expiry is
greater than or equal to the current UTC time — including exactly equal —
`GabbAuth.__call__` performs zero refresh calls; in general the token counts
as expired exactly when `expiry < now`. -/
theorem call_unexpired_no_refresh (a : GabbAuth) (now : Int) (net : Net)
    (req : Request) (h : now ≤ a.exp_date) :
    (a.call now net req).refreshCount = 0 ∧
    a.token_expired now = false ∧
    (a.call now net req).auth = a := by
  have ht : a.token_expired now = false := by
    simp [GabbAuth.token_expired, not_lt.mpr h]
  unfold GabbAuth.call
  rw [ht]
  simp [ht]

/-- Witness for C2 at the exact boundary: a token expiring exactly at the
current time triggers no refresh. -/
theorem call_unexpired_no_refresh_witness :
    (0 : Int) ≤ sampleAuth.exp_date ∧
    ((sampleAuth.call 0 netGood emptyReq).refreshCount = 0 ∧
     sampleAuth.token_expired 0 = false ∧
     (sampleAuth.call 0 netGood emptyReq).auth = sampleAuth) :=
  ⟨by decide, call_unexpired_no_refresh sampleAuth 0 netGood emptyReq (by decide)⟩

/-- C8: no refresh de-duplication: two sequential `__call__` invocations that
each observe an expired token each trigger their own refresh, two in total. -/
theorem sequential_expired_calls_two_refreshes (a : GabbAuth)
    (now1 now2 : Int) (net1 net2 : Net) (req1 req2 : Request)
    (h1 : a.exp_date < now1)
    (h2 : (a.call now1 net1 req1).auth.exp_date < now2) :
    (a.call now1 net1 req1).refreshCount +
      ((a.call now1 net1 req1).auth.call now2 net2 req2).refreshCount = 2 := by
  rw [call_refreshCount_of_expired a now1 net1 req1 h1,
    call_refreshCount_of_expired _ now2 net2 req2 h2]

/-- Witness for C8: the sample token expires at 0, the first refresh moves
expiry to 100, and the second call at time 200 observes it expired again. -/
theorem sequential_expired_calls_two_refreshes_witness :
    sampleAuth.exp_date < 1 ∧
    (sampleAuth.call 1 netGood emptyReq).auth.exp_date < 200 ∧
    (sampleAuth.call 1 netGood emptyReq).refreshCount +
      ((sampleAuth.call 1 netGood emptyReq).auth.call 200 netGood emptyReq).refreshCount = 2 :=
  ⟨by decide, by decide,
   sequential_expired_calls_two_refreshes sampleAuth 1 200 netGood netGood
     emptyReq emptyReq (by decide) (by decide)⟩

/-- C9: `__call__` modifies only the `Authorization` header: every header
whose key differs (case-insensitively, as the underlying header dict is
case-insensitive) from `Authorization` keeps its presence and value, and on
success any existing `Authorization` header is overwritten with the current
bearer token. -/
theorem call_modifies_only_authorization (a : GabbAuth) (now : Int) (net : Net)
    (req : Request) (k : String) (hk : keyEq k "Authorization" = false) :
    getHeader (a.call now net req).request.headers k = getHeader req.headers k ∧
    getHeader (a.call now net req).request.headers "Authorization" =
      (if (a.call now net req).error = none then
        some ("Bearer " ++ (a.call now net req).auth.access_token)
      else getHeader req.headers "Authorization") := by
  unfold GabbAuth.call
  by_cases hexp : a.token_expired now = true
  · rw [hexp]
    rcases hres : a.refresh_authentication net with ⟨e, a1⟩
    cases e <;>
      simp [getHeader_setHeader_self, getHeader_setHeader_other _ _ _ _ hk]
  · rw [Bool.not_eq_true] at hexp
    rw [hexp]
    simp [getHeader_setHeader_self, getHeader_setHeader_other _ _ _ _ hk]

/-- Witness for C9: a concrete request with a `Content-Type` header, preserved
by a concrete decorating call that also sets the bearer header. -/
theorem call_modifies_only_authorization_witness :
    keyEq "Content-Type" "Authorization" = false ∧
    (getHeader (sampleAuth.call 1 netGood
        ⟨[("Content-Type", "application/json")]⟩).request.headers "Content-Type" =
      getHeader [("Content-Type", "application/json")] "Content-Type" ∧
     getHeader (sampleAuth.call 1 netGood
         ⟨[("Content-Type", "application/json")]⟩).request.headers "Authorization" =
       (if (sampleAuth.call 1 netGood ⟨[("Content-Type", "application/json")]⟩).error
            = none then
         some ("Bearer " ++
           (sampleAuth.call 1 netGood
             ⟨[("Content-Type", "application/json")]⟩).auth.access_token)
       else getHeader [("Content-Type", "application/json")] "Authorization")) :=
  ⟨by decide,
   call_modifies_only_authorization sampleAuth 1 netGood
     ⟨[("Content-Type", "application/json")]⟩ "Content-Type" (by decide)⟩

/-- C10: if the refresh triggered inside `__call__` fails, the exception
propagates and the outgoing request is left completely unmodified — in
particular no `Authorization` header carrying the stale token is attached. -/
theorem call_refresh_failure_leaves_request_untouched (a : GabbAuth) (now : Int)
    (net : Net) (req : Request) (h : a.exp_date < now)
    (herr : (a.refresh_authentication net).1.isSome = true) :
    (a.call now net req).error = (a.refresh_authentication net).1 ∧
    (a.call now net req).request = req := by
  unfold GabbAuth.call
  rw [(token_expired_iff a now).mpr h]
  rcases hres : a.refresh_authentication net with ⟨e, a1⟩
  rw [hres] at herr
  cases e with
  | none => simp at herr
  | some e => simp

/-- Witness for C10: an unreachable refresh endpoint propagates the connection
error and leaves the request headers untouched. -/
theorem call_refresh_failure_leaves_request_untouched_witness :
    sampleAuth.exp_date < 1 ∧
    (sampleAuth.refresh_authentication netDown).1.isSome = true ∧
    ((sampleAuth.call 1 netDown emptyReq).error =
        (sampleAuth.refresh_authentication netDown).1 ∧
     (sampleAuth.call 1 netDown emptyReq).request = emptyReq) :=
  ⟨by decide, by decide,
   call_refresh_failure_leaves_request_untouched sampleAuth 1 netDown emptyReq
     (by decide) (by decide)⟩

/-- Further fixtures: a response whose `data` has `accessToken` but lacks the
later fields, one lacking `accessToken`, and a non-success-status oracle with
a well-formed body. -/
def partialResp : Response :=
  { status_code := 200,
    body := .jsonData { accessToken := some "tokN", refreshToken := none, expDate := none } }

/-- A response whose `data` object lacks `accessToken`. -/
def respNoAccess : Response :=
  { status_code := 200,
    body := .jsonData { accessToken := none, refreshToken := some "refN", expDate := some 100 } }

/-- A network oracle answering status 500 with a well-formed token body. -/
def net500Good : Net := fun _ => some { status_code := 500, body := goodBody }

/-- An `_update_tokens_from_response` raises iff the response lacks one of the
three token fields (or is not JSON with a `data` object). -/
theorem update_tokens_error_iff (a : GabbAuth) (resp : Response) :
    (a.update_tokens_from_response resp).1.isSome = resp.lacksTokenFields := by
  rcases resp with ⟨sc, body⟩
  cases body with
  | notJson => rfl
  | jsonWithoutData => rfl
  | jsonData d =>
    rcases d with ⟨atF, rtF, edF⟩
    cases atF <;> cases rtF <;> cases edF <;> rfl

/-- C3: the alternate-base flag is one-shot: with the flag set, the next
`request` resolves against the alternate base and clears the flag, and the
request after that resolves against the primary base again — for arbitrary
transport outcomes, so regardless of whether the alternate-base request
succeeded or failed. -/
theorem alternate_base_flag_one_shot (s : GabbSession) (u1 u2 : String)
    (t1 t2 : String → TransportOutcome)
    (h : s.use_alt_base_url_next_request = true) :
    (s.request u1 t1).2.1 = urljoin s.alt_base_url u1 ∧
    (s.request u1 t1).2.2.use_alt_base_url_next_request = false ∧
    ((s.request u1 t1).2.2.request u2 t2).2.1 = urljoin s.base_url u2 := by
  simp [GabbSession.request, GabbSession.resolve_url, h]

/-- Witness for C3: a concrete armed session whose alternate-base request
fails at transport level, followed by a primary-base request. -/
theorem alternate_base_flag_one_shot_witness :
    sampleSession.use_alternate_base_once.use_alt_base_url_next_request = true ∧
    ((sampleSession.use_alternate_base_once.request "safezone/list" tFail).2.1 =
       urljoin sampleSession.use_alternate_base_once.alt_base_url "safezone/list" ∧
     (sampleSession.use_alternate_base_once.request "safezone/list"
         tFail).2.2.use_alt_base_url_next_request = false ∧
     ((sampleSession.use_alternate_base_once.request "safezone/list"
         tFail).2.2.request "contact" tFail).2.1 =
       urljoin sampleSession.use_alternate_base_once.base_url "contact") :=
  ⟨rfl,
   alternate_base_flag_one_shot sampleSession.use_alternate_base_once
     "safezone/list" "contact" tFail tFail rfl⟩

/-- C4 counterexample: token-state updates are not atomic in general.  A
response whose `data` carries `accessToken` but lacks `refreshToken` raises a
`KeyError`, yet leaves the access token updated while the refresh token is
not: a partially-updated token state, contradicting "all three fields are
updated from that one response or none of them is". -/
theorem update_tokens_partial_update_counterexample :
    (sampleAuth.update_tokens_from_response partialResp).1 =
      some (.keyError "refreshToken") ∧
    (sampleAuth.update_tokens_from_response partialResp).2.access_token = "tokN" ∧
    sampleAuth.access_token ≠ "tokN" ∧
    (sampleAuth.update_tokens_from_response partialResp).2.refresh_token =
      sampleAuth.refresh_token := by
  decide

/-- C4 (amended): the three token fields are assigned sequentially
(`accessToken`, then `refreshToken`, then `expDate`), so atomicity holds only
when the failure hits the first field: a response that is not JSON, has no
`data` object, or lacks `accessToken` — in particular the claim's
malformed-login response missing `accessToken` — raises an error and leaves
the token state completely unchanged. -/
theorem update_tokens_missing_access_token_no_partial_state (a : GabbAuth)
    (resp : Response) (h : resp.lacksAccessToken = true) :
    (a.update_tokens_from_response resp).1.isSome = true ∧
    (a.update_tokens_from_response resp).2 = a := by
  rcases resp with ⟨sc, body⟩
  cases body with
  | notJson => exact ⟨rfl, rfl⟩
  | jsonWithoutData => exact ⟨rfl, rfl⟩
  | jsonData d =>
    rcases d with ⟨atF, rtF, edF⟩
    cases atF with
    | none => exact ⟨rfl, rfl⟩
    | some x => simp [Response.lacksAccessToken] at h

/-- Witness for amended C4: a concrete response lacking `accessToken` raises
and leaves the sample state untouched. -/
theorem update_tokens_missing_access_token_no_partial_state_witness :
    respNoAccess.lacksAccessToken = true ∧
    ((sampleAuth.update_tokens_from_response respNoAccess).1.isSome = true ∧
     (sampleAuth.update_tokens_from_response respNoAccess).2 = sampleAuth) :=
  ⟨by decide,
   update_tokens_missing_access_token_no_partial_state sampleAuth respNoAccess
     (by decide)⟩

/-- C5 counterexample: `_new_authentication` never inspects the HTTP status
code.  A status-500 response whose body carries all three token fields raises
nothing and populates the token state, contradicting "fails ... if the
endpoint returns a non-success status". -/
theorem new_authentication_ignores_status_counterexample :
    net500Good sampleAuth.auth_request =
      some { status_code := 500, body := goodBody } ∧
    (sampleAuth.new_authentication net500Good).1 = none ∧
    (sampleAuth.new_authentication net500Good).2.access_token = "tokN" ∧
    (sampleAuth.new_authentication net500Good).2.exp_date = 100 :=
  ⟨rfl, by decide, by decide, by decide⟩

/-- C5 (amended): the initial login fails exactly when the endpoint is
unreachable or the response body lacks the expected token fields (is not
JSON, has no `data` object, or misses one of the three fields); the HTTP
status code is never inspected, so a non-success status causes failure only
insofar as its body lacks the fields. -/
theorem new_authentication_failure_characterization (a : GabbAuth) (net : Net) :
    (a.new_authentication net).1.isSome = true ↔
      (net a.auth_request = none ∨
        ∃ resp, net a.auth_request = some resp ∧ resp.lacksTokenFields = true) := by
  cases hnet : net a.auth_request with
  | none => simp [GabbAuth.new_authentication, hnet]
  | some resp =>
    simp [GabbAuth.new_authentication, hnet, update_tokens_error_iff]

/-- Witness for amended C5: an unreachable endpoint makes the initial login
fail. -/
theorem new_authentication_failure_characterization_witness :
    (sampleAuth.new_authentication netDown).1.isSome = true :=
  (new_authentication_failure_characterization sampleAuth netDown).mpr (Or.inl rfl)

/-- C6: URL resolution in `GabbSession.request` follows urljoin semantics:
with primary base `https://api.example.com/v2/` and path `contact` the
resolved URL is `https://api.example.com/v2/contact`, and with the alternate
base `https://api.example.com/` selected and path `safezone/list` it is
`https://api.example.com/safezone/list`. -/
theorem request_url_resolution_examples :
    (sampleSession.request "contact" tFail).2.1 =
      "https://api.example.com/v2/contact" ∧
    (sampleSession.use_alternate_base_once.request "safezone/list" tFail).2.1 =
      "https://api.example.com/safezone/list" := by
  constructor <;> decide

/-- C7: the refresh call POSTs to the refresh endpoint with the same fixed
headers as login and a JSON body containing exactly the stored refresh token
— never the username or password — and on success replaces all three token
fields from the response while leaving every other field unchanged. -/
theorem refresh_uses_only_refresh_token (a : GabbAuth) (net : Net) :
    a.refresh_request.url = a.refresh_url ∧
    a.refresh_request.headers = required_headers ∧
    a.refresh_request.payload = [("refreshToken", a.refresh_token)] ∧
    (a.refresh_request.payload.all
      (fun kv => kv.1 ≠ "username" && kv.1 ≠ "password")) = true ∧
    (∀ (a1 : GabbAuth) (resp : Response) (d : DataObj),
      net a.refresh_request = some resp →
      resp.body = .jsonData d →
      a.refresh_authentication net = (none, a1) →
      d.accessToken = some a1.access_token ∧
      d.refreshToken = some a1.refresh_token ∧
      d.expDate = some a1.exp_date ∧
      a1.username = a.username ∧ a1.password = a.password ∧
      a1.auth_url = a.auth_url ∧ a1.refresh_url = a.refresh_url ∧
      a1.app_build = a.app_build) := by
  refine ⟨rfl, rfl, rfl, rfl, ?_⟩
  intro a1 resp d hnet hbody hra
  unfold GabbAuth.refresh_authentication at hra
  rw [hnet] at hra
  rcases resp with ⟨sc, body⟩
  simp only at hbody
  subst hbody
  rcases d with ⟨atF, rtF, edF⟩
  rcases atF with _ | at_tok
  · simp [GabbAuth.update_tokens_from_response] at hra
  rcases rtF with _ | rt_tok
  · simp [GabbAuth.update_tokens_from_response] at hra
  rcases edF with _ | ed
  · simp [GabbAuth.update_tokens_from_response] at hra
  · simp only [GabbAuth.update_tokens_from_response, Prod.mk.injEq, true_and] at hra
    subst hra
    exact ⟨rfl, rfl, rfl, rfl, rfl, rfl, rfl, rfl⟩

/-- Witness for C7: a concrete successful refresh against a well-formed
response replaces all three fields with the response's values. -/
theorem refresh_uses_only_refresh_token_witness :
    (DataObj.mk (some "tokN") (some "refN") (some 100)).accessToken =
      some (sampleAuth.refresh_authentication netGood).2.access_token ∧
    (DataObj.mk (some "tokN") (some "refN") (some 100)).refreshToken =
      some (sampleAuth.refresh_authentication netGood).2.refresh_token ∧
    (DataObj.mk (some "tokN") (some "refN") (some 100)).expDate =
      some (sampleAuth.refresh_authentication netGood).2.exp_date ∧
    (sampleAuth.refresh_authentication netGood).2.username = sampleAuth.username ∧
    (sampleAuth.refresh_authentication netGood).2.password = sampleAuth.password ∧
    (sampleAuth.refresh_authentication netGood).2.auth_url = sampleAuth.auth_url ∧
    (sampleAuth.refresh_authentication netGood).2.refresh_url = sampleAuth.refresh_url ∧
    (sampleAuth.refresh_authentication netGood).2.app_build = sampleAuth.app_build :=
  (refresh_uses_only_refresh_token sampleAuth netGood).2.2.2.2
    (sampleAuth.refresh_authentication netGood).2
    { status_code := 200, body := goodBody }
    (DataObj.mk (some "tokN") (some "refN") (some 100)) rfl rfl (by decide)

end Gabb

